import Mathlib

/-!
Shallow embedding of the LS-8 virtual machine from `src/ls8/cpu.py`
(class `CPU`).  The Python code works on a 256-cell `ram` list, an
8-element `registers` list of unbounded integers, a flags dictionary
with keys E, L, G, a program counter, an in-handler latch
(`interupting`) and a wall-clock timestamp (`last_timer`).

Modelling conventions, each noted at the definition it concerns:
* Python list cells can hold either an integer or the flags dictionary
  (the interrupt controller pushes `self.flags` onto the stack), so a
  ram cell is the sum type `Cell`.
* Negative Python list indices address from the end of the list; `ramIdx`
  normalises an index `i` with `-256 ≤ i < 0` to `256 + i`.  Indices
  outside `[-256, 255]` raise `IndexError` in Python; no modelled run
  produces one, and the total model simply reads the function anyway.
* `datetime.now()` is an external input; functions that consult the
  clock take the current time (in seconds, as a rational) as an argument.
* `print` output is accumulated in an `output` string field.
-/

/-- The flags dictionary `{'E': 0, 'L': 0, 'G': 0}` (cpu.py line 33).
Python stores the ints 0/1 produced by `int(a == b)` etc. -/
structure Flags where
  E : Int
  L : Int
  G : Int
deriving Repr, DecidableEq

/-- One cell of the Python `ram` list.  Normally an integer; the
interrupt controller (cpu.py line 126) pushes the flags dictionary
itself, so a cell may also hold a flags value. -/
inductive Cell where
  | int (v : Int)
  | flagMap (f : Flags)
deriving Repr, DecidableEq

/-- The integer stored in a cell.  Python code that does arithmetic on a
flags dictionary would raise `TypeError`; no modelled run reads a
`flagMap` cell as an integer, so the default 0 is never observed. -/
def cellInt : Cell → Int
  | .int v => v
  | .flagMap _ => 0

/-- The flags value stored in a cell (used by `iret`, cpu.py line 229).
If the popped cell is an integer Python would store that integer in
`self.flags` and crash at the next flag access; no modelled run pops a
non-flag cell there. -/
def cellFlags : Cell → Flags
  | .int _ => ⟨0, 0, 0⟩
  | .flagMap f => f

/-- Fatal runtime errors of the interpreter (`raise Exception(...)` in
cpu.py, `ZeroDivisionError` raised by Python's `/` and `%`). -/
inductive Err where
  | stackOverflow
  | stackUnderflow
  | divideByZero
deriving Repr, DecidableEq

/-- Module constant `interrupt_mask = 5` (cpu.py line 8). -/
def interrupt_mask : Fin 8 := 5
/-- Module constant `interrupt_status = 6` (cpu.py line 9). -/
def interrupt_status : Fin 8 := 6
/-- Module constant `stack_pointer = 7` (cpu.py line 10). -/
def stack_pointer : Fin 8 := 7
/-- Module constant `stack_start = -13` (cpu.py line 11): the initial
stack pointer, a negative Python index denoting ram cell 243 = 0xF3. -/
def stack_start : Int := -13
/-- Module constant `interupt = list(range(-8, 0))` (cpu.py line 13):
the interrupt vector table addresses, negative indices for ram cells
0xF8..0xFF. -/
def interupt_table : List Int := [-8, -7, -6, -5, -4, -3, -2, -1]

/-- Normalise a Python list index into the 256-cell `ram`: a negative
index `i` (with `-256 ≤ i`) addresses cell `256 + i`. -/
def ramIdx (i : Int) : Int := if i < 0 then 256 + i else i

/-- Machine state: the mutable attributes of class `CPU`
(cpu.py lines 19-34). `ram_size` is always 256 and is kept as a
literal; the `operations` dispatch dictionary is represented by the
individual operation functions below. -/
structure CPUState where
  used_ram : Nat
  ram : Int → Cell
  registers : Fin 8 → Int
  interupting : Bool
  flags : Flags
  program_counter : Int
  last_timer : ℚ
  output : String

/-- Read `self.ram[i]` (with Python negative-index normalisation). -/
def ramRead (st : CPUState) (i : Int) : Cell := st.ram (ramIdx i)

/-- Write `self.ram[i] = v`. -/
def ramWrite (st : CPUState) (i : Int) (v : Cell) : CPUState :=
  { st with ram := Function.update st.ram (ramIdx i) v }

/-- Convert an operand byte to a register index.  Python indexes the
8-element `registers` list directly: indices 0..7 and -8..-1 are valid
(and `i % 8` agrees with Python on that range); anything else raises
`IndexError`, which no modelled run triggers. -/
def regOf (i : Int) : Fin 8 :=
  ⟨(i % 8).toNat, by
    have h1 : 0 ≤ i % 8 := Int.emod_nonneg i (by decide)
    have h2 : i % 8 < 8 := Int.emod_lt_of_pos i (by decide)
    omega⟩

/-- Write `self.registers[r] = v`. -/
def setReg (st : CPUState) (r : Fin 8) (v : Int) : CPUState :=
  { st with registers := Function.update st.registers r v }

/-- The `next_byte` property (cpu.py lines 70-74): increment the program
counter, then read the ram cell it now addresses. -/
def next_byte (st : CPUState) : CPUState × Cell :=
  let st1 := { st with program_counter := st.program_counter + 1 }
  (st1, ramRead st1 st1.program_counter)

/-- `CPU.__init__` (cpu.py lines 19-34).  `t0` stands for the
`datetime.now()` captured in `last_timer`. -/
def initState (t0 : ℚ) : CPUState where
  used_ram := 0
  ram := fun _ => .int 0
  registers := (Function.update (Function.update (Function.update
    (fun _ => -1) interrupt_mask 0) interrupt_status 0)
    stack_pointer stack_start)
  interupting := false
  flags := ⟨0, 0, 0⟩
  program_counter := -1
  last_timer := t0
  output := ""

/-- `CPU.stack_push` (cpu.py lines 175-180): if
`(used_ram - SP) - ram_size < 0` write `ram[SP] = value` and decrement
SP, else raise `Stack Overflow`. -/
def stack_push (st : CPUState) (v : Cell) : Except Err CPUState :=
  if (st.used_ram : Int) - st.registers stack_pointer - 256 < 0 then
    let st1 := ramWrite st (st.registers stack_pointer) v
    .ok { st1 with registers := (Function.update st1.registers
      stack_pointer (st1.registers stack_pointer - 1)) }
  else
    .error .stackOverflow

/-- `CPU.stack_pop` (cpu.py lines 182-187): if `SP < stack_start`
increment SP and return `ram[SP]`, else raise `Stack Underflow`. -/
def stack_pop (st : CPUState) : Except Err (CPUState × Cell) :=
  if st.registers stack_pointer < stack_start then
    let st1 := { st with registers := (Function.update st.registers
      stack_pointer (st.registers stack_pointer + 1)) }
    .ok (st1, ramRead st1 (st1.registers stack_pointer))
  else
    .error .stackUnderflow

/-- `CPU.ret` (cpu.py lines 190-205).  Note: the source increments SP
and reads `ram[SP]` directly, without calling `stack_pop`, so there is
no underflow check. -/
def ret (st : CPUState) : CPUState :=
  let st1 := { st with registers := (Function.update st.registers
    stack_pointer (st.registers stack_pointer + 1)) }
  { st1 with program_counter := (cellInt (ramRead st1
      (st1.registers stack_pointer))) }

/-- `CPU.call` (cpu.py lines 309-331): fetch the register operand, save
the current program counter at `ram[SP]` (directly, without the
overflow check of `stack_push`), decrement SP, and set the program
counter to the register value minus one (the run loop's `next_byte`
pre-increments). -/
def call (st : CPUState) : CPUState :=
  let fetched := next_byte st
  let st1 := fetched.1
  let toAddr := st1.registers (regOf (cellInt fetched.2))
  let st2 := ramWrite st1 (st1.registers stack_pointer)
    (.int st1.program_counter)
  let st3 := { st2 with registers := (Function.update st2.registers
    stack_pointer (st2.registers stack_pointer - 1)) }
  { st3 with program_counter := toAddr - 1 }

/-- `CPU.prn` (cpu.py lines 271-288): fetch the register operand and
`print` its decimal value (a trailing newline, as Python `print`). -/
def prn (st : CPUState) : CPUState :=
  let fetched := next_byte st
  let st1 := fetched.1
  let value := st1.registers (regOf (cellInt fetched.2))
  { st1 with output := st1.output ++ toString value ++ "\n" }

/-- Python `1 << b` for a register value `b`: `2 ^ b`.  A negative
shift raises `ValueError` in Python; modelled uses have `b ≥ 0`. -/
def pyShlOne (b : Int) : Int := (2 : Int) ^ b.toNat

/-- `CPU.int` (cpu.py lines 333-350): fetch the register operand and
set bit `R[r]` of the interrupt status register,
`IS ← IS OR (1 << R[r])` (Python `|=` on unbounded ints). -/
def int_op (st : CPUState) : CPUState :=
  let fetched := next_byte st
  let st1 := fetched.1
  let bit := st1.registers (regOf (cellInt fetched.2))
  setReg st1 interrupt_status
    (Int.lor (st1.registers interrupt_status) (pyShlOne bit))

/-- The `one_reg_operation` shape of `CPU.alu` (cpu.py lines 545-552):
fetch one register operand and apply `f` to its value in place. -/
def one_reg_operation (f : Int → Int) (st : CPUState) : CPUState :=
  let fetched := next_byte st
  let st1 := fetched.1
  let r := regOf (cellInt fetched.2)
  setReg st1 r (f (st1.registers r))

/-- The `two_reg_operation` shape of `CPU.alu` (cpu.py lines 554-564):
fetch two register operands and store `f a b` in the first. -/
def two_reg_operation (f : Int → Int → Int) (st : CPUState) : CPUState :=
  let fa := next_byte st
  let fb := next_byte fa.1
  let st2 := fb.1
  let ra := regOf (cellInt fa.2)
  let rb := regOf (cellInt fb.2)
  setReg st2 ra (f (st2.registers ra) (st2.registers rb))

/-- `two_reg_operation` applied to a lambda whose Python evaluation can
raise (`ZeroDivisionError` from `%` or `/`). -/
def two_reg_operation_exc (f : Int → Int → Except Err Int)
    (st : CPUState) : Except Err CPUState :=
  let fa := next_byte st
  let fb := next_byte fa.1
  let st2 := fb.1
  let ra := regOf (cellInt fa.2)
  let rb := regOf (cellInt fb.2)
  match f (st2.registers ra) (st2.registers rb) with
  | .error e => .error e
  | .ok v => .ok (setReg st2 ra v)

/-- The `compare_operation` of `CPU.alu` (cpu.py lines 566-575): fetch
two register operands and set `E ← int(a == b)`, `L ← int(a < b)`,
`G ← int(a > b)`. -/
def compare_operation (st : CPUState) : CPUState :=
  let fa := next_byte st
  let fb := next_byte fa.1
  let st2 := fb.1
  let a := st2.registers (regOf (cellInt fa.2))
  let b := st2.registers (regOf (cellInt fb.2))
  { st2 with flags :=
      ⟨if a = b then 1 else 0, if a < b then 1 else 0,
       if a > b then 1 else 0⟩ }

/-- ALU `ADD` (opcode 0xA0, cpu.py line 588): `lambda a, b: a + b` on
Python's unbounded integers - no modulo-256 reduction. -/
def aluADD : CPUState → CPUState := two_reg_operation (fun a b => a + b)

/-- ALU `SUB` (opcode 0xA1, cpu.py line 602): `lambda a, b: a - b`. -/
def aluSUB : CPUState → CPUState := two_reg_operation (fun a b => a - b)

/-- ALU `MUL` (opcode 0xA2, cpu.py line 615): `lambda a, b: a * b`. -/
def aluMUL : CPUState → CPUState := two_reg_operation (fun a b => a * b)

/-- ALU `INC` (opcode 0xA5, cpu.py line 663): `lambda a: a + 1`. -/
def aluINC : CPUState → CPUState := one_reg_operation (fun a => a + 1)

/-- ALU `DEC` (opcode 0xA6, cpu.py line 676): `lambda a: a - 1`. -/
def aluDEC : CPUState → CPUState := one_reg_operation (fun a => a - 1)

/-- The `DIV` lambda (opcode 0xA3, cpu.py line 632): `lambda a, b: a / b`
is Python TRUE division.  It raises `ZeroDivisionError` when `b = 0`;
otherwise it returns a float, modelled exactly as the rational `a / b`
(exact for the inputs evaluated below). -/
def div_lambda (a b : ℚ) : Except Err ℚ :=
  if b = 0 then .error .divideByZero else .ok (a / b)

/-- The `MOD` lambda (opcode 0xA4, cpu.py line 649): `lambda a, b: a % b`.
Python raises `ZeroDivisionError` when `b = 0`; otherwise `a % b` on
integers is the floor-based remainder `a - b * ⌊a/b⌋`, i.e. `Int.fmod`. -/
def mod_lambda (a b : Int) : Except Err Int :=
  if b = 0 then .error .divideByZero else .ok (Int.fmod a b)

/-- ALU `MOD` at the machine level: `two_reg_operation` over `mod_lambda`. -/
def aluMOD : CPUState → Except Err CPUState := two_reg_operation_exc mod_lambda

/-- The scan of `CPU.interupt` (cpu.py lines 119-121): the first
`i ∈ range(8)` with `((masked >> i) & 1) == 1`, if any.  Python `>>`
on any int (two's complement) is floor division by `2 ^ i`, and
`& 1` is the low bit `x mod 2 ∈ {0, 1}` (Python `%` is also the
floor-based remainder), so the test is `⌊masked / 2^i⌋ % 2 == 1`. -/
def findPending (masked : Int) : Option Nat :=
  (List.range 8).find? (fun i => Int.fdiv masked (2 ^ i) % 2 == 1)

/-- The register-saving loop of `CPU.interupt` (cpu.py lines 128-129):
`for reg in range(7): self.stack_push(self.registers[reg])`, here
generalised over the list of indices pushed (`[0,…,6]` at the call
site).  Each push may raise `Stack Overflow`. -/
def pushRegs : CPUState → List (Fin 8) → Except Err CPUState
  | st, [] => .ok st
  | st, r :: rest =>
    match stack_push st (.int (st.registers r)) with
    | .error e => .error e
    | .ok st1 => pushRegs st1 rest

/-- `CPU.interupt` (cpu.py lines 115-132): when IS is non-zero and the
in-handler latch is clear, find the lowest set bit `i` of `IM AND IS`
(scanning `range(8)`); if found, clear bit `i` of IS (`^= 1 << i`),
set the latch, push PC, the flags dictionary, and registers R0..R6 (in
that order, each via the checked `stack_push`), then load PC from the
vector `ram[interupt[i]]` minus one (the run loop pre-increments). -/
def interupt (st : CPUState) : Except Err CPUState :=
  if st.registers interrupt_status ≠ 0 ∧ st.interupting = false then
    match findPending (Int.land (st.registers interrupt_mask)
        (st.registers interrupt_status)) with
    | none => .ok st
    | some i =>
      let st0 := { setReg st interrupt_status
        (Int.xor (st.registers interrupt_status) ((2 : Int) ^ i)) with
        interupting := true }
      match stack_push st0 (.int st0.program_counter) with
      | .error e => .error e
      | .ok st1 =>
        match stack_push st1 (.flagMap st1.flags) with
        | .error e => .error e
        | .ok st2 =>
          match pushRegs st2 [0, 1, 2, 3, 4, 5, 6] with
          | .error e => .error e
          | .ok st3 =>
            .ok { st3 with program_counter :=
              (cellInt (ramRead st3 (interupt_table.getD i 0)) - 1) }
  else .ok st

/-- The register-restoring loop of `CPU.iret` (cpu.py lines 226-227):
`for i in range(6, -1, -1): self.registers[i] = self.stack_pop()`,
here generalised over the list of indices popped (`[6,…,0]` at the
call site).  Each pop may raise `Stack Underflow`. -/
def popRegs : CPUState → List (Fin 8) → Except Err CPUState
  | st, [] => .ok st
  | st, r :: rest =>
    match stack_pop st with
    | .error e => .error e
    | .ok (st1, c) => popRegs (setReg st1 r (cellInt c)) rest

/-- `CPU.iret` (cpu.py lines 207-231): pop R6..R0 (in that order), pop
the flags, pop the return PC, and clear the in-handler latch. -/
def iret (st : CPUState) : Except Err CPUState :=
  match popRegs st [6, 5, 4, 3, 2, 1, 0] with
  | .error e => .error e
  | .ok st1 =>
    match stack_pop st1 with
    | .error e => .error e
    | .ok (st2, cf) =>
      match stack_pop { st2 with flags := cellFlags cf } with
      | .error e => .error e
      | .ok (st3, cp) =>
        .ok { st3 with program_counter := cellInt cp, interupting := false }

/-- `CPU.interupt_timer` (cpu.py lines 151-155): with `t` the value of
`datetime.now()` in seconds, if strictly more than one second has
passed since `last_timer` and the timer vector `ram[interupt[0]]` is
non-zero (Python truthiness), record `t` and ASSIGN
`registers[interrupt_status] = 1` (overwriting all other IS bits). -/
def interupt_timer (st : CPUState) (t : ℚ) : CPUState :=
  if 1 < t - st.last_timer ∧
      cellInt (ramRead st (interupt_table.getD 0 0)) ≠ 0 then
    { setReg st interrupt_status 1 with last_timer := t }
  else st

/-! ### Concrete machine states used to evaluate the model -/

/-- A state about to be interrupted: IM = IS = 1, SP at its initial
value, distinct values in R0..R4, a non-trivial flag setting, PC 42. -/
def cex1 : CPUState :=
  { initState 0 with
    registers := (fun r => if r = 5 then 1 else if r = 6 then 1
      else if r = 7 then -13 else 10 + (r : Int)),
    program_counter := 42, flags := ⟨1, 0, 1⟩ }

/-- The state produced by dispatching the pending interrupt of `cex1`. -/
def cex1d : CPUState := (interupt cex1).toOption.getD cex1

/-- Poised to execute the operands of `MOD R0 R1` with R0 = 7, R1 = 0. -/
def cex2a : CPUState :=
  { initState 0 with
    program_counter := 0,
    ram := (Function.update (Function.update (initState 0).ram
      1 (.int 0)) 2 (.int 1)),
    registers := (Function.update (Function.update
      (initState 0).registers 0 7) 1 0) }

/-- Poised to execute the operands of `MOD R0 R1` with R0 = 7, R1 = 2. -/
def cex2b : CPUState :=
  { initState 0 with
    program_counter := 0,
    ram := (Function.update (Function.update (initState 0).ram
      1 (.int 0)) 2 (.int 1)),
    registers := (Function.update (Function.update
      (initState 0).registers 0 7) 1 2) }

/-- Poised to execute the operands of `ADD R0 R1` with R0 = R1 = 200. -/
def cex3 : CPUState :=
  { initState 0 with
    program_counter := 0,
    ram := (Function.update (Function.update (initState 0).ram
      1 (.int 0)) 2 (.int 1)),
    registers := (Function.update (Function.update
      (initState 0).registers 0 200) 1 200) }

/-- Poised to execute the operand of `CALL R2` with R2 = 10: opcode at
address 0, operand byte (register index 2) at address 1. -/
def cex5 : CPUState :=
  { initState 0 with
    program_counter := 0,
    ram := Function.update (initState 0).ram 1 (.int 2),
    registers := Function.update (initState 0).registers 2 10 }

/-- A fresh machine whose IS has bit 1 pending, with a timer handler
vector installed at mem[0xF8] (= ram cell 248) and `last_timer` 0. -/
def cex7 : CPUState :=
  { initState 0 with
    ram := Function.update (initState 0).ram 248 (.int 5),
    registers := Function.update (initState 0).registers 6 2 }

/-- Poised to execute the operand of `INT R0` with R0 = 8 (a fresh
machine: IS = 0). -/
def cex9 : CPUState :=
  { initState 0 with
    program_counter := 0,
    ram := Function.update (initState 0).ram 1 (.int 0),
    registers := Function.update (initState 0).registers 0 8 }

/-- Poised to execute the operand of `INT R1` with R1 = 3 and IS = 5. -/
def cex9w : CPUState :=
  { initState 0 with
    program_counter := 0,
    ram := Function.update (initState 0).ram 1 (.int 1),
    registers := (Function.update (Function.update
      (initState 0).registers 1 3) 6 5) }

/-- A fresh machine with the two-byte program `PRN R0` (opcode 0x47 at
address 0, operand 0 at address 1) about to run its operand fetch. -/
def cex10 : CPUState :=
  { initState 0 with
    program_counter := 0,
    ram := (Function.update (Function.update (initState 0).ram
      0 (.int 71)) 1 (.int 0)) }

/-- The spec's stack-overflow condition, read off §4.1/§7: the push is
refused when the stack pointer "would overlap the highest used program
address", i.e. when after the push decrements SP its absolute ram
address `256 + SP - 1` would lie at or below the highest used program
address `used_ram - 1`. -/
abbrev wouldOverlapProgram (st : CPUState) : Prop :=
  256 + st.registers stack_pointer - 1 ≤ (st.used_ram : Int) - 1

/-! ### Theorems -/

/-- C10: At VM construction, R0..R4 are initialized to -1 (only IM = R5
and IS = R6 start at 0, and SP = R7 at the stack start), so a program
executing `PRN` on a never-written register prints "-1" and a newline. -/
theorem C10_init_registers_prn :
    ((initState 0).registers 0 = -1 ∧ (initState 0).registers 1 = -1 ∧
      (initState 0).registers 2 = -1 ∧ (initState 0).registers 3 = -1 ∧
      (initState 0).registers 4 = -1) ∧
    (initState 0).registers 5 = 0 ∧ (initState 0).registers 6 = 0 ∧
    (initState 0).registers 7 = stack_start ∧
    (prn cex10).output = "-1\n" := by
  decide

/-- C4 counterexample: executing `RET` on a fresh machine (stack empty,
SP = stack_start = -13) does NOT fail: `ret` is total, silently sets
SP to -12 and loads PC from ram cell 244 (= 0xF4, inside the interrupt
vector area; 0 on the fresh machine).  The checked `stack_pop` WOULD
signal stack underflow here, but `ret` never calls it. -/
theorem C4_cex_ret_no_underflow :
    (ret (initState 0)).registers 7 = -12 ∧
    (ret (initState 0)).program_counter = 0 ∧
    stack_pop (initState 0) = .error .stackUnderflow :=
  ⟨by decide, by decide, rfl⟩

/-- C4 amended: `RET` bypasses the checked pop.  With the stack empty
(SP = stack_start), `stack_pop` itself would fail with stack
underflow, but `RET` raises no error: it increments SP past the stack
base and loads PC from the cell just above it, `mem[0xF4]` (ram
cell 244). -/
theorem C4_amended_ret (st : CPUState) (h : st.registers 7 = stack_start) :
    stack_pop st = .error .stackUnderflow ∧
    (ret st).registers 7 = stack_start + 1 ∧
    (ret st).program_counter = cellInt (st.ram 244) := by
  refine ⟨?_, ?_, ?_⟩
  · simp [stack_pop, stack_pointer, h]
  · simp [ret, stack_pointer, h, Function.update_same]
  · simp [ret, ramRead, ramIdx, stack_pointer, h, stack_start,
      Function.update_same]

/-- C4 witness: the amended theorem evaluated on the fresh machine. -/
theorem C4_amended_ret_witness :
    stack_pop (initState 0) = .error .stackUnderflow ∧
    (ret (initState 0)).registers 7 = stack_start + 1 ∧
    (ret (initState 0)).program_counter = cellInt ((initState 0).ram 244) :=
  C4_amended_ret (initState 0) (by decide)

/-- C8: after `CMP a,b` the flags are E = (a==b), L = (a<b), G = (a>b),
and exactly one of them is set (trichotomy of the integer order). -/
theorem C8_cmp_flags (st : CPUState) :
    let a := st.registers (regOf (cellInt
      (ramRead st (st.program_counter + 1))))
    let b := st.registers (regOf (cellInt
      (ramRead st (st.program_counter + 1 + 1))))
    let f := (compare_operation st).flags
    (f.E = 1 ↔ a = b) ∧ (f.L = 1 ↔ a < b) ∧ (f.G = 1 ↔ a > b) ∧
    ((f.E = 1 ∧ f.L = 0 ∧ f.G = 0) ∨ (f.E = 0 ∧ f.L = 1 ∧ f.G = 0) ∨
      (f.E = 0 ∧ f.L = 0 ∧ f.G = 1)) := by
  intro a b f
  have hf : f = ⟨if a = b then 1 else 0, if a < b then 1 else 0,
      if a > b then 1 else 0⟩ := rfl
  rcases lt_trichotomy a b with h | h | h
  · rw [hf]
    simp [h, ne_of_lt h, not_lt_of_gt h]
  · rw [hf]
    simp [h]
  · rw [hf]
    simp [h, (ne_of_lt h).symm, not_lt_of_gt h, le_of_lt h]

/-- C3 counterexample: `ADD R0 R1` with R0 = R1 = 200 stores 400, not
the modulo-256 wrap 144: the ALU lambdas use Python's unbounded
integers and never reduce modulo 256. -/
theorem C3_cex_add_no_wrap :
    (aluADD cex3).registers 0 = 400 ∧ ((200 + 200) % 256 : Int) = 144 ∧
    (400 : Int) ≠ 144 := by
  decide

/-- C3 amended: ADD, SUB and MUL store in R[a] the EXACT (unbounded)
integer sum, difference and product of R[a] and R[b], and INC/DEC the
exact R[a] ± 1; no modulo-256 reduction is applied anywhere. -/
theorem C3_amended_exact_arith (st : CPUState) :
    let ia := regOf (cellInt (ramRead st (st.program_counter + 1)))
    let ib := regOf (cellInt (ramRead st (st.program_counter + 1 + 1)))
    (aluADD st).registers ia = st.registers ia + st.registers ib ∧
    (aluSUB st).registers ia = st.registers ia - st.registers ib ∧
    (aluMUL st).registers ia = st.registers ia * st.registers ib ∧
    (aluINC st).registers ia = st.registers ia + 1 ∧
    (aluDEC st).registers ia = st.registers ia - 1 := by
  intro ia ib
  refine ⟨?_, ?_, ?_, ?_, ?_⟩ <;>
    exact Function.update_same ..

/-- C2: evaluation of the DIV and MOD lambdas and of machine-level MOD.
Both raise divide-by-zero on a zero divisor, and MOD stores the integer
remainder; but DIV at R[a] = 7, R[b] = 2 produces the true-division
value 7/2 = 3.5, NOT the integer quotient 3. -/
theorem C2_div_true_division :
    div_lambda 7 0 = .error .divideByZero ∧
    mod_lambda 7 0 = .error .divideByZero ∧
    mod_lambda 7 2 = .ok 1 ∧
    div_lambda 7 2 = .ok (7 / 2 : ℚ) ∧ ((7 / 2 : ℚ) ≠ 3) ∧
    aluMOD cex2a = .error .divideByZero ∧
    ((aluMOD cex2b).toOption.map (fun s => s.registers 0) = some 1) :=
  ⟨by norm_num [div_lambda], by simp [mod_lambda],
    by simp [mod_lambda],
    by norm_num [div_lambda], by norm_num, rfl, rfl⟩

/-- C9 counterexample: `INT R0` with R[0] = 8 on a fresh machine (IS = 0)
sets IS to 1 << 8 = 256, which is not an 8-bit value: `INT r` does not
keep IS within bits 0..7 for every register value R[r]. -/
theorem C9_cex_int_overflows :
    (int_op cex9).registers 6 = 256 ∧ ¬ (int_op cex9).registers 6 ≤ 255 := by
  decide

/-- C9 amended: `INT r` performs `IS ← IS OR (1 << R[r])` with no
masking, so IS stays an 8-bit value only under the side conditions
that it was one and that `R[r] ≤ 7`; IM (R5) is untouched. -/
theorem C9_amended_int_masked (st : CPUState) (m b : Nat)
    (hIS : st.registers 6 = (m : Int)) (hm : m < 256)
    (hbit : st.registers (regOf (cellInt
      (ramRead st (st.program_counter + 1)))) = (b : Int))
    (hb : b ≤ 7) :
    (int_op st).registers 6 = ((m ||| 2 ^ b : Nat) : Int) ∧
    ((m ||| 2 ^ b : Nat) : Int) < 256 ∧
    (int_op st).registers 5 = st.registers 5 := by
  have hlt : (m ||| 2 ^ b : Nat) < 256 := by
    have h2 : (2 : Nat) ^ b < 2 ^ 8 :=
      Nat.pow_lt_pow_right (by norm_num) (by omega)
    exact Nat.or_lt_two_pow hm h2
  refine ⟨?_, ?_, ?_⟩
  · have : (int_op st).registers 6 =
        Int.lor (st.registers 6) (pyShlOne (st.registers (regOf (cellInt
          (ramRead st (st.program_counter + 1)))))) := by
      simp [int_op, next_byte, setReg, interrupt_status, ramRead,
        Function.update_same]
    rw [this, hIS, hbit]
    show Int.lor (m : Int) ((2 : Int) ^ ((b : Int)).toNat) = _
    rw [show ((b : Int)).toNat = b from rfl]
    rw [show ((2 : Int) ^ b) = ((2 ^ b : Nat) : Int) by push_cast; ring]
    exact rfl
  · exact_mod_cast Int.ofNat_lt.mpr hlt
  · simp [int_op, next_byte, setReg, interrupt_status]

/-- C9 witness: the amended theorem evaluated at `INT R1` with
R1 = 3, IS = 5. -/
theorem C9_amended_int_masked_witness :
    (int_op cex9w).registers 6 = ((5 ||| 2 ^ 3 : Nat) : Int) ∧
    ((5 ||| 2 ^ 3 : Nat) : Int) < 256 ∧
    (int_op cex9w).registers 5 = cex9w.registers 5 :=
  C9_amended_int_masked cex9w 5 3 (by decide) (by decide) (by decide)
    (by decide)

/-- C7 counterexample: with IS = 2 (bit 1 pending), a non-zero timer
vector and 2 seconds elapsed, the timer poll sets IS to 1, NOT to 3:
it assigns `IS = 1` wholesale, clearing bits 1..7 instead of leaving
them unchanged. -/
theorem C7_cex_timer_clobbers_is :
    cex7.registers 6 = 2 ∧
    (interupt_timer cex7 2).registers 6 = 1 ∧
    Int.lor (cex7.registers 6) 1 = 3 ∧
    (interupt_timer cex7 2).registers 6 ≠ 3 := by
  have hcond : (1 : ℚ) < 2 - cex7.last_timer ∧
      cellInt (ramRead cex7 (interupt_table.getD 0 0)) ≠ 0 :=
    ⟨(by norm_num : (1 : ℚ) < 2 - 0), by decide⟩
  refine ⟨by decide, ?_, by decide, ?_⟩ <;>
    simp only [interupt_timer, if_pos hcond] <;> decide

/-- C7 amended: when STRICTLY more than one second has elapsed since
`last_timer` and the timer vector at mem[0xF8] (ram cell 248, Python
index `interupt[0] = -8`) is non-zero, the poll ASSIGNS IS = 1
(setting bit 0 and clearing bits 1..7) and records the current time;
otherwise it changes nothing. -/
theorem C7_amended_timer (st : CPUState) (t : ℚ) :
    (1 < t - st.last_timer → cellInt (ramRead st (-8)) ≠ 0 →
      (interupt_timer st t).registers 6 = 1 ∧
      (interupt_timer st t).last_timer = t ∧
      (∀ r : Fin 8, r ≠ 6 → (interupt_timer st t).registers r =
        st.registers r) ∧
      (interupt_timer st t).ram = st.ram ∧
      (interupt_timer st t).program_counter = st.program_counter ∧
      (interupt_timer st t).flags = st.flags ∧
      (interupt_timer st t).interupting = st.interupting) ∧
    (¬ (1 < t - st.last_timer ∧ cellInt (ramRead st (-8)) ≠ 0) →
      interupt_timer st t = st) := by
  have htab : interupt_table.getD 0 0 = (-8 : Int) := rfl
  constructor
  · intro h1 h2
    have hcond : (1 < t - st.last_timer ∧
        cellInt (ramRead st (interupt_table.getD 0 0)) ≠ 0) := by
      rw [htab]; exact ⟨h1, h2⟩
    simp only [interupt_timer, if_pos hcond]
    refine ⟨?_, trivial, ?_, rfl, rfl, rfl, rfl⟩
    · simp [setReg, interrupt_status, Function.update_same]
    · intro r hr
      show Function.update st.registers interrupt_status 1 r =
        st.registers r
      rw [show interrupt_status = (6 : Fin 8) from rfl,
        Function.update_noteq hr]
  · intro h
    have hcond : ¬ (1 < t - st.last_timer ∧
        cellInt (ramRead st (interupt_table.getD 0 0)) ≠ 0) := by
      rw [htab]; exact h
    simp only [interupt_timer, if_neg hcond]

/-- C7 witness: the amended theorem evaluated on `cex7` at time 2. -/
theorem C7_amended_timer_witness :
    (interupt_timer cex7 2).registers 6 = 1 ∧
    (interupt_timer cex7 2).last_timer = 2 ∧
    (∀ r : Fin 8, r ≠ 6 → (interupt_timer cex7 2).registers r =
      cex7.registers r) ∧
    (interupt_timer cex7 2).ram = cex7.ram ∧
    (interupt_timer cex7 2).program_counter = cex7.program_counter ∧
    (interupt_timer cex7 2).flags = cex7.flags ∧
    (interupt_timer cex7 2).interupting = cex7.interupting :=
  (C7_amended_timer cex7 2).1 ((by norm_num : (1 : ℚ) < 2 - 0))
    (by decide)

/-- C6: `stack_push` fails with stack overflow exactly when the push
would leave SP overlapping the loaded program (absolute address
`256 + SP - 1 ≤ used_ram - 1`, i.e. no free slot remains between
program and stack); otherwise it writes `mem[SP] = v`, then decrements
SP, leaving every other cell, register and field unchanged. -/
theorem C6_push_overflow_iff (st : CPUState) (v : Cell) :
    (stack_push st v = .error .stackOverflow ↔ wouldOverlapProgram st) ∧
    (¬ wouldOverlapProgram st →
      ∃ st1, stack_push st v = .ok st1 ∧
        st1.ram (ramIdx (st.registers 7)) = v ∧
        (∀ a : Int, a ≠ ramIdx (st.registers 7) → st1.ram a = st.ram a) ∧
        st1.registers 7 = st.registers 7 - 1 ∧
        (∀ r : Fin 8, r ≠ 7 → st1.registers r = st.registers r) ∧
        st1.used_ram = st.used_ram ∧
        st1.program_counter = st.program_counter ∧
        st1.flags = st.flags ∧ st1.interupting = st.interupting ∧
        st1.output = st.output ∧ st1.last_timer = st.last_timer) := by
  have key : ((st.used_ram : Int) - st.registers stack_pointer - 256 < 0)
      ↔ ¬ wouldOverlapProgram st := by
    constructor
    · intro h hov
      have hov' : 256 + st.registers stack_pointer - 1 ≤
          (st.used_ram : Int) - 1 := hov
      omega
    · intro h
      have h' : ¬ (256 + st.registers stack_pointer - 1 ≤
          (st.used_ram : Int) - 1) := h
      omega
  constructor
  · constructor
    · intro h
      by_cases hc : (st.used_ram : Int) - st.registers stack_pointer
          - 256 < 0
      · exfalso
        simp only [stack_push, ramWrite, if_pos hc] at h
        exact Except.noConfusion h
      · by_contra hov
        exact hc (key.mpr hov)
    · intro hov
      have hc : ¬ ((st.used_ram : Int) - st.registers stack_pointer
          - 256 < 0) := fun hcc => (key.mp hcc) hov
      simp only [stack_push, ramWrite, if_neg hc]
  · intro hov
    have hc : (st.used_ram : Int) - st.registers stack_pointer
        - 256 < 0 := key.mpr hov
    refine ⟨{ st with
        ram := (Function.update st.ram
          (ramIdx (st.registers stack_pointer)) v),
        registers := (Function.update st.registers stack_pointer
          (st.registers stack_pointer - 1)) },
      ?_, ?_, ?_, ?_, ?_, rfl, rfl, rfl, rfl, rfl, rfl⟩
    · simp only [stack_push, ramWrite, if_pos hc]
    · exact Function.update_same (ramIdx (st.registers stack_pointer))
        v st.ram
    · intro a ha
      exact Function.update_noteq ha v st.ram
    · exact Function.update_same stack_pointer
        (st.registers stack_pointer - 1) st.registers
    · intro r hr
      exact Function.update_noteq hr (st.registers stack_pointer - 1)
        st.registers

/-- C6 witness: on the fresh machine (SP = -13, no program loaded) the
overlap condition is false and the push succeeds, landing in ram
cell 243 = 0xF3. -/
theorem C6_push_overflow_iff_witness :
    ∃ st1, stack_push (initState 0) (.int 9) = .ok st1 ∧
      st1.ram (ramIdx ((initState 0).registers 7)) = .int 9 ∧
      (∀ a : Int, a ≠ ramIdx ((initState 0).registers 7) →
        st1.ram a = (initState 0).ram a) ∧
      st1.registers 7 = (initState 0).registers 7 - 1 ∧
      (∀ r : Fin 8, r ≠ 7 → st1.registers r =
        (initState 0).registers r) ∧
      st1.used_ram = (initState 0).used_ram ∧
      st1.program_counter = (initState 0).program_counter ∧
      st1.flags = (initState 0).flags ∧
      st1.interupting = (initState 0).interupting ∧
      st1.output = (initState 0).output ∧
      st1.last_timer = (initState 0).last_timer :=
  (C6_push_overflow_iff (initState 0) (.int 9)).2 (by decide)

/-- C5: `CALL r` saves the address of its operand byte (= PC + 1 at the
opcode) on the stack; when the subroutine reaches a `RET` with the
stack undisturbed (stack pointer and the saved cell as `CALL` left
them, registers as `CALL` left them), `RET` restores all eight
registers to their values before the `CALL` (the SP decrement is
undone) and sets the program counter back to the operand address, so
that the next fetch - `next_byte` pre-increments - executes the byte
immediately after the `CALL r` operand. -/
theorem C5_call_ret (st st2 : CPUState)
    (hregs : st2.registers = (call st).registers)
    (hcell : st2.ram (ramIdx (st.registers 7)) =
      (call st).ram (ramIdx (st.registers 7))) :
    (ret st2).registers = st.registers ∧
    (ret st2).program_counter = st.program_counter + 1 := by
  have hc : (call st).registers = Function.update st.registers
      stack_pointer (st.registers stack_pointer - 1) := rfl
  constructor
  · show (Function.update st2.registers stack_pointer
      (st2.registers stack_pointer + 1)) = st.registers
    rw [hregs, hc]
    rw [Function.update_same]
    rw [Function.update_idem]
    have : st.registers stack_pointer - 1 + 1 =
        st.registers stack_pointer := by ring
    rw [this, Function.update_eq_self]
  · show cellInt (ramRead { st2 with registers :=
      (Function.update st2.registers stack_pointer
        (st2.registers stack_pointer + 1)) }
      ((Function.update st2.registers stack_pointer
        (st2.registers stack_pointer + 1)) stack_pointer)) =
      st.program_counter + 1
    rw [ramRead]
    rw [Function.update_same]
    have hsp : st2.registers stack_pointer =
        st.registers stack_pointer - 1 := by
      rw [hregs, hc, Function.update_same]
    rw [hsp]
    have : st.registers stack_pointer - 1 + 1 =
        st.registers stack_pointer := by ring
    rw [this]
    show cellInt (st2.ram (ramIdx (st.registers 7))) = _
    rw [hcell]
    have hfr : (call st).ram (ramIdx (st.registers 7)) =
        .int (st.program_counter + 1) := by
      show Function.update st.ram
        (ramIdx (st.registers stack_pointer))
        (.int (st.program_counter + 1)) (ramIdx (st.registers 7)) = _
      exact Function.update_same (ramIdx (st.registers stack_pointer))
        (.int (st.program_counter + 1)) st.ram
    rw [hfr]
    rfl

/-- C5 witness: `CALL R2` on a concrete machine followed directly by
`RET` restores all registers and resumes just after the operand. -/
theorem C5_call_ret_witness :
    (ret (call cex5)).registers = cex5.registers ∧
    (ret (call cex5)).program_counter = cex5.program_counter + 1 :=
  C5_call_ret cex5 (call cex5) rfl rfl

/-- A successful `stack_push` writes the cell at SP and decrements SP. -/
theorem stack_push_ok (st : CPUState) (v : Cell)
    (h : (st.used_ram : Int) - st.registers stack_pointer - 256 < 0) :
    stack_push st v = .ok { st with
      ram := (Function.update st.ram
        (ramIdx (st.registers stack_pointer)) v),
      registers := (Function.update st.registers stack_pointer
        (st.registers stack_pointer - 1)) } := by
  simp only [stack_push, ramWrite, if_pos h]

/-- A successful `stack_pop` increments SP and returns the cell there. -/
theorem stack_pop_ok (st : CPUState)
    (h : st.registers stack_pointer < stack_start) :
    stack_pop st = .ok
      ({ st with registers := (Function.update st.registers
          stack_pointer (st.registers stack_pointer + 1)) },
        st.ram (ramIdx (st.registers stack_pointer + 1))) := by
  simp only [stack_pop, ramRead, if_pos h, Function.update_same]


/-- A successful `stack_push`, with the new stack pointer, the written
ram address, and the written cell supplied in normalised form. -/
theorem stack_push_okc (st : CPUState) (v : Cell) (s' a : Int) (w : Cell)
    (h : (st.used_ram : Int) - st.registers stack_pointer - 256 < 0)
    (hs : st.registers stack_pointer - 1 = s')
    (ha : ramIdx (st.registers stack_pointer) = a)
    (hw : v = w) :
    stack_push st v = .ok { st with
      ram := (Function.update st.ram a w),
      registers := (Function.update st.registers stack_pointer s') } := by
  subst hs
  subst ha
  subst hw
  exact stack_push_ok st v h

/-- A successful `stack_pop`, with the new stack pointer and the cell
read supplied in normalised form. -/
theorem stack_pop_okc (st : CPUState) (s' : Int) (c : Cell)
    (h : st.registers stack_pointer < stack_start)
    (hs : st.registers stack_pointer + 1 = s')
    (hc : st.ram (ramIdx s') = c) :
    stack_pop st = .ok ({ st with registers :=
      (Function.update st.registers stack_pointer s') }, c) := by
  subst hs
  subst hc
  exact stack_pop_ok st h

set_option maxHeartbeats 1600000 in
/-- Interrupt dispatch followed by `IRET` over an undisturbed frame.
`st` is a state at the top of the run loop with an unmasked pending
interrupt whose lowest masked bit is `i`, SP inside the stack region
and room for the nine saved cells; `st1` is the dispatched state;
`st2` is any state at the `IRET` (after arbitrary handler execution)
whose SP and whose nine saved stack cells agree with `st1`.  Then
`IRET` succeeds and restores R0..R5, SP, the flags and the PC to
their values at the instant before dispatch and clears the latch -
but restores R6 (IS) to the pre-dispatch IS with bit `i` cleared
(`Int.xor`), because `CPU.interupt` clears the bit before pushing
R0..R6. -/
theorem interupt_iret_frame (st st1 st2 : CPUState) (i : Nat)
    (hIS : st.registers interrupt_status ≠ 0)
    (hlatch : st.interupting = false)
    (hfind : findPending (Int.land (st.registers interrupt_mask)
      (st.registers interrupt_status)) = some i)
    (hsp : st.registers stack_pointer ≤ stack_start)
    (hroom : (st.used_ram : Int) + 8 < 256 + st.registers stack_pointer)
    (hdisp : interupt st = .ok st1)
    (hsp2 : st2.registers stack_pointer = st1.registers stack_pointer)
    (hframe : ∀ k : Int, 0 ≤ k → k ≤ 8 →
      st2.ram (ramIdx (st.registers stack_pointer - k)) =
      st1.ram (ramIdx (st.registers stack_pointer - k))) :
    ∃ st3, iret st2 = .ok st3 ∧
      st3.registers 0 = st.registers 0 ∧
      st3.registers 1 = st.registers 1 ∧
      st3.registers 2 = st.registers 2 ∧
      st3.registers 3 = st.registers 3 ∧
      st3.registers 4 = st.registers 4 ∧
      st3.registers 5 = st.registers 5 ∧
      st3.registers 6 = Int.xor (st.registers interrupt_status)
        ((2 : Int) ^ i) ∧
      st3.registers 7 = st.registers 7 ∧
      st3.flags = st.flags ∧
      st3.program_counter = st.program_counter ∧
      st3.interupting = false := by
  have hss : stack_start = -13 := rfl
  have hrx : ∀ k : Int, 0 ≤ k → k ≤ 8 →
      ramIdx (st.registers stack_pointer - k) =
      256 + st.registers stack_pointer - k := by
    intro k h0 h8
    simp only [ramIdx]
    split_ifs <;> omega
  unfold interupt at hdisp
  rw [if_pos (show st.registers interrupt_status ≠ 0 ∧
    st.interupting = false from ⟨hIS, hlatch⟩)] at hdisp
  rw [hfind] at hdisp
  simp only [] at hdisp
  simp only [pushRegs] at hdisp
  rw [stack_push_okc _ _ (st.registers stack_pointer - 1)
    (256 + st.registers stack_pointer) (.int st.program_counter)] at hdisp
  simp only [] at hdisp
  rw [stack_push_okc _ _ (st.registers stack_pointer - 2)
    (256 + st.registers stack_pointer - 1) (.flagMap st.flags)] at hdisp
  simp only [] at hdisp
  rw [stack_push_okc _ _ (st.registers stack_pointer - 3)
    (256 + st.registers stack_pointer - 2) (.int (st.registers 0))] at hdisp
  simp only [] at hdisp
  rw [stack_push_okc _ _ (st.registers stack_pointer - 4)
    (256 + st.registers stack_pointer - 3) (.int (st.registers 1))] at hdisp
  simp only [] at hdisp
  rw [stack_push_okc _ _ (st.registers stack_pointer - 5)
    (256 + st.registers stack_pointer - 4) (.int (st.registers 2))] at hdisp
  simp only [] at hdisp
  rw [stack_push_okc _ _ (st.registers stack_pointer - 6)
    (256 + st.registers stack_pointer - 5) (.int (st.registers 3))] at hdisp
  simp only [] at hdisp
  rw [stack_push_okc _ _ (st.registers stack_pointer - 7)
    (256 + st.registers stack_pointer - 6) (.int (st.registers 4))] at hdisp
  simp only [] at hdisp
  rw [stack_push_okc _ _ (st.registers stack_pointer - 8)
    (256 + st.registers stack_pointer - 7) (.int (st.registers 5))] at hdisp
  simp only [] at hdisp
  rw [stack_push_okc _ _ (st.registers stack_pointer - 9)
    (256 + st.registers stack_pointer - 8) (.int (Int.xor (st.registers interrupt_status) ((2 : Int) ^ i)))] at hdisp
  simp only [] at hdisp
  rotate_left 1
  · show (st.used_ram : Int) - (st.registers stack_pointer - 8) - 256 < 0
    omega
  · show st.registers stack_pointer - 8 - 1 = st.registers stack_pointer - 9
    omega
  · show ramIdx (st.registers stack_pointer - 8) = 256 + st.registers stack_pointer - 8
    simp only [ramIdx]
    split_ifs <;> omega
  · rfl
  · show (st.used_ram : Int) - (st.registers stack_pointer - 7) - 256 < 0
    omega
  · show st.registers stack_pointer - 7 - 1 = st.registers stack_pointer - 8
    omega
  · show ramIdx (st.registers stack_pointer - 7) = 256 + st.registers stack_pointer - 7
    simp only [ramIdx]
    split_ifs <;> omega
  · rfl
  · show (st.used_ram : Int) - (st.registers stack_pointer - 6) - 256 < 0
    omega
  · show st.registers stack_pointer - 6 - 1 = st.registers stack_pointer - 7
    omega
  · show ramIdx (st.registers stack_pointer - 6) = 256 + st.registers stack_pointer - 6
    simp only [ramIdx]
    split_ifs <;> omega
  · rfl
  · show (st.used_ram : Int) - (st.registers stack_pointer - 5) - 256 < 0
    omega
  · show st.registers stack_pointer - 5 - 1 = st.registers stack_pointer - 6
    omega
  · show ramIdx (st.registers stack_pointer - 5) = 256 + st.registers stack_pointer - 5
    simp only [ramIdx]
    split_ifs <;> omega
  · rfl
  · show (st.used_ram : Int) - (st.registers stack_pointer - 4) - 256 < 0
    omega
  · show st.registers stack_pointer - 4 - 1 = st.registers stack_pointer - 5
    omega
  · show ramIdx (st.registers stack_pointer - 4) = 256 + st.registers stack_pointer - 4
    simp only [ramIdx]
    split_ifs <;> omega
  · rfl
  · show (st.used_ram : Int) - (st.registers stack_pointer - 3) - 256 < 0
    omega
  · show st.registers stack_pointer - 3 - 1 = st.registers stack_pointer - 4
    omega
  · show ramIdx (st.registers stack_pointer - 3) = 256 + st.registers stack_pointer - 3
    simp only [ramIdx]
    split_ifs <;> omega
  · rfl
  · show (st.used_ram : Int) - (st.registers stack_pointer - 2) - 256 < 0
    omega
  · show st.registers stack_pointer - 2 - 1 = st.registers stack_pointer - 3
    omega
  · show ramIdx (st.registers stack_pointer - 2) = 256 + st.registers stack_pointer - 2
    simp only [ramIdx]
    split_ifs <;> omega
  · rfl
  · show (st.used_ram : Int) - (st.registers stack_pointer - 1) - 256 < 0
    omega
  · show st.registers stack_pointer - 1 - 1 = st.registers stack_pointer - 2
    omega
  · show ramIdx (st.registers stack_pointer - 1) = 256 + st.registers stack_pointer - 1
    simp only [ramIdx]
    split_ifs <;> omega
  · rfl
  · show (st.used_ram : Int) - (st.registers stack_pointer) - 256 < 0
    omega
  · show st.registers stack_pointer - 1 = st.registers stack_pointer - 1
    omega
  · show ramIdx (st.registers stack_pointer) = 256 + st.registers stack_pointer
    simp only [ramIdx]
    split_ifs <;> omega
  · rfl
  injection hdisp with hFIN
  subst hFIN
  have hc1 : st2.ram (256 + st.registers stack_pointer - 8) = .int (Int.xor (st.registers interrupt_status) ((2 : Int) ^ i)) := by
    have h := hframe 8 (by decide) (by decide)
    rw [hrx 8 (by decide) (by decide)] at h
    rw [h]
    simp only [Function.update_apply]
    split_ifs <;> first | rfl | (exfalso; omega)
  have hc2 : st2.ram (256 + st.registers stack_pointer - 7) = .int (st.registers 5) := by
    have h := hframe 7 (by decide) (by decide)
    rw [hrx 7 (by decide) (by decide)] at h
    rw [h]
    simp only [Function.update_apply]
    split_ifs <;> first | rfl | (exfalso; omega)
  have hc3 : st2.ram (256 + st.registers stack_pointer - 6) = .int (st.registers 4) := by
    have h := hframe 6 (by decide) (by decide)
    rw [hrx 6 (by decide) (by decide)] at h
    rw [h]
    simp only [Function.update_apply]
    split_ifs <;> first | rfl | (exfalso; omega)
  have hc4 : st2.ram (256 + st.registers stack_pointer - 5) = .int (st.registers 3) := by
    have h := hframe 5 (by decide) (by decide)
    rw [hrx 5 (by decide) (by decide)] at h
    rw [h]
    simp only [Function.update_apply]
    split_ifs <;> first | rfl | (exfalso; omega)
  have hc5 : st2.ram (256 + st.registers stack_pointer - 4) = .int (st.registers 2) := by
    have h := hframe 4 (by decide) (by decide)
    rw [hrx 4 (by decide) (by decide)] at h
    rw [h]
    simp only [Function.update_apply]
    split_ifs <;> first | rfl | (exfalso; omega)
  have hc6 : st2.ram (256 + st.registers stack_pointer - 3) = .int (st.registers 1) := by
    have h := hframe 3 (by decide) (by decide)
    rw [hrx 3 (by decide) (by decide)] at h
    rw [h]
    simp only [Function.update_apply]
    split_ifs <;> first | rfl | (exfalso; omega)
  have hc7 : st2.ram (256 + st.registers stack_pointer - 2) = .int (st.registers 0) := by
    have h := hframe 2 (by decide) (by decide)
    rw [hrx 2 (by decide) (by decide)] at h
    rw [h]
    simp only [Function.update_apply]
    split_ifs <;> first | rfl | (exfalso; omega)
  have hc8 : st2.ram (256 + st.registers stack_pointer - 1) = .flagMap st.flags := by
    have h := hframe 1 (by decide) (by decide)
    rw [hrx 1 (by decide) (by decide)] at h
    rw [h]
    simp only [Function.update_apply]
    split_ifs <;> first | rfl | (exfalso; omega)
  have hc9 : st2.ram (256 + st.registers stack_pointer - 0) = .int st.program_counter := by
    have h := hframe 0 (by decide) (by decide)
    rw [hrx 0 (by decide) (by decide)] at h
    rw [h]
    simp only [Function.update_apply]
    split_ifs <;> first | rfl | (exfalso; omega)
  have hsp2' : st2.registers stack_pointer =
      st.registers stack_pointer - 9 := by
    rw [hsp2]
    rfl
  unfold iret
  simp only [popRegs]
  rw [stack_pop_okc _ (st.registers stack_pointer - 8)
    (.int (Int.xor (st.registers interrupt_status) ((2 : Int) ^ i)))]
  simp only []
  rw [stack_pop_okc _ (st.registers stack_pointer - 7)
    (.int (st.registers 5))]
  simp only []
  rw [stack_pop_okc _ (st.registers stack_pointer - 6)
    (.int (st.registers 4))]
  simp only []
  rw [stack_pop_okc _ (st.registers stack_pointer - 5)
    (.int (st.registers 3))]
  simp only []
  rw [stack_pop_okc _ (st.registers stack_pointer - 4)
    (.int (st.registers 2))]
  simp only []
  rw [stack_pop_okc _ (st.registers stack_pointer - 3)
    (.int (st.registers 1))]
  simp only []
  rw [stack_pop_okc _ (st.registers stack_pointer - 2)
    (.int (st.registers 0))]
  simp only []
  rw [stack_pop_okc _ (st.registers stack_pointer - 1)
    (.flagMap st.flags)]
  simp only []
  rw [stack_pop_okc _ (st.registers stack_pointer - 0)
    (.int st.program_counter)]
  simp only []
  refine ⟨_, rfl, ?_, ?_, ?_, ?_, ?_, ?_, ?_, ?_, ?_, ?_, ?_⟩
  · simp [setReg, cellInt, Function.update_apply, stack_pointer]
  · simp [setReg, cellInt, Function.update_apply, stack_pointer]
  · simp [setReg, cellInt, Function.update_apply, stack_pointer]
  · simp [setReg, cellInt, Function.update_apply, stack_pointer]
  · simp [setReg, cellInt, Function.update_apply, stack_pointer]
  · simp [setReg, cellInt, Function.update_apply, stack_pointer]
  · simp [setReg, cellInt, Function.update_apply, stack_pointer]
  · simp [setReg, cellInt, Function.update_apply, stack_pointer]
  · simp [cellFlags]
  · simp [cellInt]
  · rfl
  · show st.registers stack_pointer - 1 < stack_start
    omega
  · show st.registers stack_pointer - 1 + 1 = st.registers stack_pointer - 0
    omega
  · show st2.ram (ramIdx (st.registers stack_pointer - 0)) = .int st.program_counter
    rw [hrx 0 (by decide) (by decide)]
    exact hc9
  · show st.registers stack_pointer - 2 < stack_start
    omega
  · show st.registers stack_pointer - 2 + 1 = st.registers stack_pointer - 1
    omega
  · show st2.ram (ramIdx (st.registers stack_pointer - 1)) = .flagMap st.flags
    rw [hrx 1 (by decide) (by decide)]
    exact hc8
  · show st.registers stack_pointer - 3 < stack_start
    omega
  · show st.registers stack_pointer - 3 + 1 = st.registers stack_pointer - 2
    omega
  · show st2.ram (ramIdx (st.registers stack_pointer - 2)) = .int (st.registers 0)
    rw [hrx 2 (by decide) (by decide)]
    exact hc7
  · show st.registers stack_pointer - 4 < stack_start
    omega
  · show st.registers stack_pointer - 4 + 1 = st.registers stack_pointer - 3
    omega
  · show st2.ram (ramIdx (st.registers stack_pointer - 3)) = .int (st.registers 1)
    rw [hrx 3 (by decide) (by decide)]
    exact hc6
  · show st.registers stack_pointer - 5 < stack_start
    omega
  · show st.registers stack_pointer - 5 + 1 = st.registers stack_pointer - 4
    omega
  · show st2.ram (ramIdx (st.registers stack_pointer - 4)) = .int (st.registers 2)
    rw [hrx 4 (by decide) (by decide)]
    exact hc5
  · show st.registers stack_pointer - 6 < stack_start
    omega
  · show st.registers stack_pointer - 6 + 1 = st.registers stack_pointer - 5
    omega
  · show st2.ram (ramIdx (st.registers stack_pointer - 5)) = .int (st.registers 3)
    rw [hrx 5 (by decide) (by decide)]
    exact hc4
  · show st.registers stack_pointer - 7 < stack_start
    omega
  · show st.registers stack_pointer - 7 + 1 = st.registers stack_pointer - 6
    omega
  · show st2.ram (ramIdx (st.registers stack_pointer - 6)) = .int (st.registers 4)
    rw [hrx 6 (by decide) (by decide)]
    exact hc3
  · show st.registers stack_pointer - 8 < stack_start
    omega
  · show st.registers stack_pointer - 8 + 1 = st.registers stack_pointer - 7
    omega
  · show st2.ram (ramIdx (st.registers stack_pointer - 7)) = .int (st.registers 5)
    rw [hrx 7 (by decide) (by decide)]
    exact hc2
  · omega
  · omega
  · rw [hrx 8 (by decide) (by decide)]
    exact hc1

set_option maxHeartbeats 1600000 in
/-- Under the dispatch conditions of `interupt` (pending unmasked
interrupt, latch clear, SP in the stack region, room for the nine
saved cells) the dispatch succeeds. -/
theorem interupt_ok_exists (st : CPUState) (i : Nat)
    (hIS : st.registers interrupt_status ≠ 0)
    (hlatch : st.interupting = false)
    (hfind : findPending (Int.land (st.registers interrupt_mask)
      (st.registers interrupt_status)) = some i)
    (hsp : st.registers stack_pointer ≤ stack_start)
    (hroom : (st.used_ram : Int) + 8 < 256 + st.registers stack_pointer) :
    ∃ st1, interupt st = .ok st1 := by
  have hss : stack_start = -13 := rfl
  unfold interupt
  rw [if_pos (show st.registers interrupt_status ≠ 0 ∧
    st.interupting = false from ⟨hIS, hlatch⟩)]
  rw [hfind]
  simp only []
  simp only [pushRegs]
  rw [stack_push_okc _ _ (st.registers stack_pointer - 1)
    (256 + st.registers stack_pointer) (.int st.program_counter)]
  simp only []
  rw [stack_push_okc _ _ (st.registers stack_pointer - 2)
    (256 + st.registers stack_pointer - 1) (.flagMap st.flags)]
  simp only []
  rw [stack_push_okc _ _ (st.registers stack_pointer - 3)
    (256 + st.registers stack_pointer - 2) (.int (st.registers 0))]
  simp only []
  rw [stack_push_okc _ _ (st.registers stack_pointer - 4)
    (256 + st.registers stack_pointer - 3) (.int (st.registers 1))]
  simp only []
  rw [stack_push_okc _ _ (st.registers stack_pointer - 5)
    (256 + st.registers stack_pointer - 4) (.int (st.registers 2))]
  simp only []
  rw [stack_push_okc _ _ (st.registers stack_pointer - 6)
    (256 + st.registers stack_pointer - 5) (.int (st.registers 3))]
  simp only []
  rw [stack_push_okc _ _ (st.registers stack_pointer - 7)
    (256 + st.registers stack_pointer - 6) (.int (st.registers 4))]
  simp only []
  rw [stack_push_okc _ _ (st.registers stack_pointer - 8)
    (256 + st.registers stack_pointer - 7) (.int (st.registers 5))]
  simp only []
  rw [stack_push_okc _ _ (st.registers stack_pointer - 9)
    (256 + st.registers stack_pointer - 8) (.int (Int.xor (st.registers interrupt_status) ((2 : Int) ^ i)))]
  simp only []
  exact ⟨_, rfl⟩
  · show (st.used_ram : Int) - (st.registers stack_pointer - 8) - 256 < 0
    omega
  · show st.registers stack_pointer - 8 - 1 = st.registers stack_pointer - 9
    omega
  · show ramIdx (st.registers stack_pointer - 8) = 256 + st.registers stack_pointer - 8
    simp only [ramIdx]
    split_ifs <;> omega
  · rfl
  · show (st.used_ram : Int) - (st.registers stack_pointer - 7) - 256 < 0
    omega
  · show st.registers stack_pointer - 7 - 1 = st.registers stack_pointer - 8
    omega
  · show ramIdx (st.registers stack_pointer - 7) = 256 + st.registers stack_pointer - 7
    simp only [ramIdx]
    split_ifs <;> omega
  · rfl
  · show (st.used_ram : Int) - (st.registers stack_pointer - 6) - 256 < 0
    omega
  · show st.registers stack_pointer - 6 - 1 = st.registers stack_pointer - 7
    omega
  · show ramIdx (st.registers stack_pointer - 6) = 256 + st.registers stack_pointer - 6
    simp only [ramIdx]
    split_ifs <;> omega
  · rfl
  · show (st.used_ram : Int) - (st.registers stack_pointer - 5) - 256 < 0
    omega
  · show st.registers stack_pointer - 5 - 1 = st.registers stack_pointer - 6
    omega
  · show ramIdx (st.registers stack_pointer - 5) = 256 + st.registers stack_pointer - 5
    simp only [ramIdx]
    split_ifs <;> omega
  · rfl
  · show (st.used_ram : Int) - (st.registers stack_pointer - 4) - 256 < 0
    omega
  · show st.registers stack_pointer - 4 - 1 = st.registers stack_pointer - 5
    omega
  · show ramIdx (st.registers stack_pointer - 4) = 256 + st.registers stack_pointer - 4
    simp only [ramIdx]
    split_ifs <;> omega
  · rfl
  · show (st.used_ram : Int) - (st.registers stack_pointer - 3) - 256 < 0
    omega
  · show st.registers stack_pointer - 3 - 1 = st.registers stack_pointer - 4
    omega
  · show ramIdx (st.registers stack_pointer - 3) = 256 + st.registers stack_pointer - 3
    simp only [ramIdx]
    split_ifs <;> omega
  · rfl
  · show (st.used_ram : Int) - (st.registers stack_pointer - 2) - 256 < 0
    omega
  · show st.registers stack_pointer - 2 - 1 = st.registers stack_pointer - 3
    omega
  · show ramIdx (st.registers stack_pointer - 2) = 256 + st.registers stack_pointer - 2
    simp only [ramIdx]
    split_ifs <;> omega
  · rfl
  · show (st.used_ram : Int) - (st.registers stack_pointer - 1) - 256 < 0
    omega
  · show st.registers stack_pointer - 1 - 1 = st.registers stack_pointer - 2
    omega
  · show ramIdx (st.registers stack_pointer - 1) = 256 + st.registers stack_pointer - 1
    simp only [ramIdx]
    split_ifs <;> omega
  · rfl
  · show (st.used_ram : Int) - (st.registers stack_pointer) - 256 < 0
    omega
  · show st.registers stack_pointer - 1 = st.registers stack_pointer - 1
    omega
  · show ramIdx (st.registers stack_pointer) = 256 + st.registers stack_pointer
    simp only [ramIdx]
    split_ifs <;> omega
  · rfl

/-- C1 (amended): if an interrupt is dispatched from state `st` (via
`INT i` or the timer having set an IS bit) and the handler returns via
`IRET` with the stack frame undisturbed (`st2` has the dispatched SP
and the nine saved cells intact), the `IRET` restores R0..R5, SP, the
flags E/L/G and the PC bit-identically to the instant before
dispatch and clears the in-handler latch; R6 (IS) however comes back
as the pre-dispatch IS with the dispatched bit XORed off, because the
dispatcher clears the IS bit before saving R0..R6. -/
theorem C1_amended_interrupt_iret (st st1 st2 : CPUState) (i : Nat)
    (hIS : st.registers interrupt_status ≠ 0)
    (hlatch : st.interupting = false)
    (hfind : findPending (Int.land (st.registers interrupt_mask)
      (st.registers interrupt_status)) = some i)
    (hsp : st.registers stack_pointer ≤ stack_start)
    (hroom : (st.used_ram : Int) + 8 < 256 + st.registers stack_pointer)
    (hdisp : interupt st = .ok st1)
    (hsp2 : st2.registers stack_pointer = st1.registers stack_pointer)
    (hframe : ∀ k : Int, 0 ≤ k → k ≤ 8 →
      st2.ram (ramIdx (st.registers stack_pointer - k)) =
      st1.ram (ramIdx (st.registers stack_pointer - k))) :
    ∃ st3, iret st2 = .ok st3 ∧
      st3.registers 0 = st.registers 0 ∧
      st3.registers 1 = st.registers 1 ∧
      st3.registers 2 = st.registers 2 ∧
      st3.registers 3 = st.registers 3 ∧
      st3.registers 4 = st.registers 4 ∧
      st3.registers 5 = st.registers 5 ∧
      st3.registers 6 = Int.xor (st.registers interrupt_status)
        ((2 : Int) ^ i) ∧
      st3.registers 7 = st.registers 7 ∧
      st3.flags = st.flags ∧
      st3.program_counter = st.program_counter ∧
      st3.interupting = false :=
  interupt_iret_frame st st1 st2 i hIS hlatch hfind hsp hroom hdisp
    hsp2 hframe

/-- C1 counterexample: on `cex1` (IM = IS = 1, handler frame left
untouched, immediate `IRET`), R6 after the `IRET` is 0, while IS was 1
immediately before dispatch: R0..R6 are not all restored
bit-identically, because dispatch clears the IS bit before saving. -/
theorem C1_cex_is_not_restored :
    cex1.registers 6 = 1 ∧
    ((interupt cex1).toOption.bind
      (fun s1 : CPUState => (iret s1).toOption)).map
      (fun s3 : CPUState => s3.registers 6) = some 0 ∧
    ((0 : Int) ≠ 1) := by
  refine ⟨by decide, ?_, by decide⟩
  have hfind : findPending (Int.land (cex1.registers interrupt_mask)
      (cex1.registers interrupt_status)) = some 0 := by
    rw [show Int.land (cex1.registers interrupt_mask)
        (cex1.registers interrupt_status) = 1 from by
      rw [show cex1.registers interrupt_mask = 1 from by decide,
        show cex1.registers interrupt_status = 1 from by decide]
      simp [Int.land]]
    decide
  obtain ⟨s1, h1⟩ := interupt_ok_exists cex1 0 (by decide) (by decide)
    hfind (by decide) (by decide)
  obtain ⟨s3, h3, _, _, _, _, _, _, h6, _, _, _, _⟩ :=
    interupt_iret_frame cex1 s1 s1 0 (by decide) (by decide) hfind
      (by decide) (by decide) h1 rfl (fun k h0 h8 => rfl)
  rw [h1]
  simp only [Except.toOption, Option.bind]
  rw [h3]
  simp only [Except.toOption, Option.map]
  rw [h6]
  rw [show cex1.registers interrupt_status = 1 from by decide]
  norm_num [Int.xor]

/-- C1 witness: the amended theorem evaluated on `cex1` with the
trivial (empty) handler: the dispatched state itself is the state at
the `IRET`. -/
theorem C1_amended_interrupt_iret_witness :
    ∃ st3, iret cex1d = .ok st3 ∧
      st3.registers 0 = cex1.registers 0 ∧
      st3.registers 1 = cex1.registers 1 ∧
      st3.registers 2 = cex1.registers 2 ∧
      st3.registers 3 = cex1.registers 3 ∧
      st3.registers 4 = cex1.registers 4 ∧
      st3.registers 5 = cex1.registers 5 ∧
      st3.registers 6 = Int.xor (cex1.registers interrupt_status)
        ((2 : Int) ^ 0) ∧
      st3.registers 7 = cex1.registers 7 ∧
      st3.flags = cex1.flags ∧
      st3.program_counter = cex1.program_counter ∧
      st3.interupting = false := by
  have hfind : findPending (Int.land (cex1.registers interrupt_mask)
      (cex1.registers interrupt_status)) = some 0 := by
    rw [show Int.land (cex1.registers interrupt_mask)
        (cex1.registers interrupt_status) = 1 from by
      rw [show cex1.registers interrupt_mask = 1 from by decide,
        show cex1.registers interrupt_status = 1 from by decide]
      simp [Int.land]]
    decide
  obtain ⟨s1, h1⟩ := interupt_ok_exists cex1 0 (by decide) (by decide)
    hfind (by decide) (by decide)
  have hcd : cex1d = s1 := by
    unfold cex1d
    rw [h1]
    rfl
  rw [hcd]
  exact C1_amended_interrupt_iret cex1 s1 s1 0 (by decide) (by decide)
    hfind (by decide) (by decide) h1 rfl (fun k h0 h8 => rfl)
